import Mathlib

/-!
Verification of the hsafa-logic Python SDK's event-stream client and
correlation layer, shallowly embedded in Lean 4.

The embedding mirrors `hsafa/sse.py` (SSE frame parser, event decoder,
dispatcher, reconnect loop) and `hsafa/resources/messages.py`
(`send_and_wait` correlated-wait orchestrator).  Python/JSON values are
modelled by the `Json` inductive (Python `None` and JSON `null` coincide,
as they do after `json.loads`); Python truthiness by `Json.truthy`;
`a or b` by `pyOr`; float delays by rationals.  A handler or code path
that can raise is modelled as returning a `Bool` "raised" flag or an
`Option`; a swallowed exception is a dropped flag.
-/

/-- JSON / decoded-Python value as produced by `json.loads`: null (= Python
`None`), booleans, numbers (modelled as integers; the claims only involve
integral values), strings, arrays, and objects as key-ordered field lists. -/
inductive Json where
  | null : Json
  | bool (b : Bool) : Json
  | num (n : Int) : Json
  | str (s : String) : Json
  | arr (elems : List Json) : Json
  | obj (fields : List (String × Json)) : Json

/-- Python truthiness of a decoded value: `None`, `False`, `0`, `""`, `[]`
and `{}` are falsy, everything else truthy. -/
def Json.truthy : Json → Bool
  | .null => false
  | .bool b => b
  | .num n => n != 0
  | .str s => s != ""
  | .arr elems => !elems.isEmpty
  | .obj fields => !fields.isEmpty

/-- Python `a or b` on decoded values: `a` if truthy, else `b`. -/
def pyOr (a b : Json) : Json :=
  if a.truthy then a else b

/-- Lookup of a key in an object's field list (first match). -/
def lookupField : List (String × Json) → String → Option Json
  | [], _ => none
  | (k, v) :: rest, key => if k = key then some v else lookupField rest key

/-- Python `d.get(key, default)` on an object's field list. -/
def lookupD (fields : List (String × Json)) (key : String) (d : Json) : Json :=
  (lookupField fields key).getD d

mutual

/-- Python `==` on decoded values: structural equality (numeric cross-type
corners such as `1 == True` are irrelevant to the claims and not modelled). -/
def Json.beq : Json → Json → Bool
  | .arr xs, .arr ys => beqElems xs ys
  | .obj xs, .obj ys => beqPairs xs ys
  | .null, .null => true
  | .bool x, .bool y => x == y
  | .num x, .num y => x == y
  | .str x, .str y => x == y
  | _, _ => false

/-- Elementwise `Json.beq` on array contents. -/
def beqElems (xs ys : List Json) : Bool :=
  match xs, ys with
  | [], [] => true
  | _ :: _, [] => false
  | [], _ :: _ => false
  | x :: tx, y :: ty => Json.beq x y && beqElems tx ty

/-- Keywise and valuewise `Json.beq` on object field lists. -/
def beqPairs (xs ys : List (String × Json)) : Bool :=
  match xs, ys with
  | [], [] => true
  | (k, v) :: tx, (l, w) :: ty => k == l && Json.beq v w && beqPairs tx ty
  | _, _ => false

end

/-- Python `str(x)` for decoded values.  Scalar cases are exact; container
cases are abstracted to fixed tokens (no claim evaluates them). -/
def pyStr : Json → String
  | .null => "None"
  | .bool true => "True"
  | .bool false => "False"
  | .num n => toString n
  | .str s => s
  | .arr _ => "<list>"
  | .obj _ => "<dict>"

/-! ## SSE frame parser (`sse.py`, `SSEStream._run`, lines 115-146)

A wire line is a `List Char`.  The accumulator `current` holds the data
lines, id and event type of the frame being assembled. -/

/-- Raw frame accumulator: `current = {"data": [], "id": None, "type": None}`. -/
structure RawFrame where
  data : List (List Char)
  id : Option (List Char)
  type : Option (List Char)

/-- The reset accumulator. -/
def emptyFrame : RawFrame := ⟨[], none, none⟩

/-- Python `line.find(":")` followed by the two slices: `none` when the line
has no colon, otherwise the part before the first colon and the part after
it. -/
def splitAtFirstColon : List Char → Option (List Char × List Char)
  | [] => none
  | c :: rest =>
    if c = ':' then some ([], rest)
    else
      match splitAtFirstColon rest with
      | some (pre, post) => some (c :: pre, post)
      | none => none

/-- One iteration of the line loop in `SSEStream._run`: comment lines are
skipped, a blank line emits the accumulated frame (if it has data lines) and
resets the accumulator, a `field:value` line strips all leading spaces from
the value (`lstrip(" ")`) and stores it under a recognized field, and a line
without a colon is ignored.  Returns the new accumulator and the emitted
frame, if any. -/
def processLine (current : RawFrame) (line : List Char) : RawFrame × Option RawFrame :=
  match line with
  | [] =>
    if current.data.isEmpty then (emptyFrame, none) else (emptyFrame, some current)
  | c :: rest =>
    if c = ':' then (current, none)
    else
      match splitAtFirstColon (c :: rest) with
      | none => (current, none)
      | some (field, post) =>
        let value := post.dropWhile (fun ch => ch = ' ')
        if field = "id".toList then ({ current with id := some value }, none)
        else if field = "event".toList then ({ current with type := some value }, none)
        else if field = "data".toList then
          ({ current with data := current.data ++ [value] }, none)
        else (current, none)

/-! ## Event decoder (`sse.py`, `SSEStream._process_raw`, lines 75-95) -/

/-- The event dictionary built by `_process_raw`.  Every field is a decoded
value; absent keys were `None` in Python and are `Json.null` here. -/
structure Event where
  id : Json
  type : Json
  ts : Json
  data : Json
  smartSpaceId : Json
  runId : Json
  entityId : Json
  agentEntityId : Json
  seq : Json

/-- Python `"\n".join(...)` on the accumulated data lines. -/
def joinNL : List (List Char) → List Char
  | [] => []
  | [x] => x
  | x :: rest => x ++ '\n' :: joinNL rest

/-- A raw-frame string field viewed as a decoded value (`None` ↦ null). -/
def optJson : Option (List Char) → Json
  | none => Json.null
  | some s => Json.str (String.mk s)

/-- `SSEStream._process_raw`, parameterized by the JSON parser
(`json.loads`): `parse s = none` models a `JSONDecodeError`.  An empty
joined data string produces no event; a parse failure produces no event; a
parsed document that is not an object makes `parsed.get` raise an
`AttributeError`, which the surrounding `except` swallows, so it also
produces no event.  `none` means no event is produced, hence no listener is
invoked and no exception propagates to the read loop. -/
def process_raw (parse : List Char → Option Json) (raw : RawFrame) : Option Event :=
  let data_str := joinNL raw.data
  if data_str.isEmpty then none
  else
    match parse data_str with
    | none => none
    | some parsed =>
      match parsed with
      | Json.obj fields =>
        let data_field := pyOr (lookupD fields "data" Json.null) (Json.obj fields)
        some
          { id := pyOr (optJson raw.id) (lookupD fields "id" (Json.str ""))
            type :=
              pyOr (lookupD fields "type" Json.null)
                (pyOr (optJson raw.type) (Json.str "unknown"))
            ts := lookupD fields "ts" (Json.str "")
            data := data_field
            smartSpaceId := lookupD fields "smartSpaceId" Json.null
            runId :=
              pyOr (lookupD fields "runId" Json.null)
                (match data_field with
                 | Json.obj dfields => lookupD dfields "runId" Json.null
                 | _ => Json.null)
            entityId := lookupD fields "entityId" Json.null
            agentEntityId := lookupD fields "agentEntityId" Json.null
            seq := lookupD fields "seq" Json.null }
      | _ => none

/-! ## Event dispatcher (`sse.py`, `SSEStream.on` / `SSEStream._emit`)

A handler mutates some listener-visible state `σ` and may raise: it returns
the state after the call together with a `raised` flag.  `_emit` wraps each
call in `try/except Exception: pass`, modelled by discarding the flag.  The
handler dictionary `self._handlers` (event type ↦ list of handlers in
registration order) is modelled by the registration list itself: `on`
appends a `(type, handler)` pair, and `handlersFor` recovers the
per-type list in registration order, exactly as
`setdefault(...).append(...)` builds it. -/

/-- A listener: new state plus whether the call raised. -/
def HandlerB (σ : Type) : Type := Event → σ → σ × Bool

/-- `self._handlers.get(t, [])` for a registration list built by `on`. -/
def handlersFor {σ : Type} (regs : List (String × HandlerB σ)) (t : String) :
    List (HandlerB σ) :=
  (regs.filter (fun p => p.1 = t)).map (fun p => p.2)

/-- Invoke a list of handlers in order, swallowing anything a handler
raises (`try: handler(event) except Exception: pass`). -/
def runHandlers {σ : Type} (hs : List (HandlerB σ)) (event : Event) (s : σ) : σ :=
  hs.foldl (fun st h => (h event st).1) s

/-- `SSEStream._emit`: run the handlers registered for the event's type in
registration order, then the handlers registered for `"*"`, each call
individually guarded by `try/except`.  A non-string event type matches no
string key of the handler dictionary. -/
def emit {σ : Type} (regs : List (String × HandlerB σ)) (etype : Json)
    (event : Event) (s : σ) : σ :=
  let typeHs :=
    match etype with
    | Json.str t => handlersFor regs t
    | _ => []
  runHandlers (handlersFor regs "*") event (runHandlers typeHs event s)

/-! ## Reconnecting connection (`sse.py`, `SSEStream.__init__` and `_run`) -/

/-- Connection construction parameters, as bound by `SSEStream.__init__`
(default arguments included).  Delays are modelled as rationals. -/
structure SSEStreamInit where
  url : String
  reconnect : Bool
  reconnect_delay : ℚ
  max_reconnect_delay : ℚ

/-- `SSEStream(url, headers, ...)` with the constructor's default
arguments `reconnect=True, reconnect_delay=1.0, max_reconnect_delay=30.0`. -/
def mkSSEStream (url : String) (reconnect : Bool := true)
    (reconnect_delay : ℚ := 1) (max_reconnect_delay : ℚ := 30) : SSEStreamInit :=
  ⟨url, reconnect, reconnect_delay, max_reconnect_delay⟩

/-- What one pass of `_run`'s `while` loop observes: the connection opened
successfully (so `_reconnect_attempts = 0` is executed), or the attempt
raised / the read failed. -/
inductive ConnOutcome where
  | success : ConnOutcome
  | failure : ConnOutcome

/-- The reconnect bookkeeping of `SSEStream._run`, threaded over a sequence
of connection outcomes with the current `_reconnect_attempts` counter `a`.
Returns the list of back-off sleeps performed, in order, and whether the
loop exited by `break` before consuming the whole sequence (which happens
on a failure when reconnection is disabled).  On success the counter is
reset to 0; on failure with reconnection enabled the counter is
incremented and the loop sleeps
`min(reconnect_delay * 2 ** (attempts - 1), max_reconnect_delay)`. -/
def runLoop (reconnect : Bool) (base maxd : ℚ) : Nat → List ConnOutcome → List ℚ × Bool
  | _, [] => ([], false)
  | _, ConnOutcome.success :: rest => runLoop reconnect base maxd 0 rest
  | a, ConnOutcome.failure :: rest =>
    if reconnect then
      let r := runLoop reconnect base maxd (a + 1) rest
      (min (base * 2 ^ a) maxd :: r.1, r.2)
    else ([], true)

/-! ## Correlated wait orchestrator (`resources/messages.py`,
`MessagesResource.send_and_wait`)

The closures of `send_and_wait` share `text_parts`, `tool_calls`, the
`_settled` flag guarded by the `settled` lock, `error_holder` and
`done_event`; together they form `WaitState`.  Each handler returns the
state after the call plus a `raised` flag (an `AttributeError` from
calling `.get` on a truthy non-dict value); `_emit` swallows the flag. -/

/-- One record of the `tool_calls` dict:
`{"id": ..., "name": ..., "input": None, "output": None}`. -/
structure ToolCallRec where
  id : String
  name : String
  input : Json
  output : Json

/-- The mutable state shared by `send_and_wait`'s closures. -/
structure WaitState where
  textParts : List Json
  toolCalls : List (String × ToolCallRec)
  settled : Bool
  errorHolder : Option String
  doneEvent : Bool

/-- The state as first created: empty parts, no calls, unsettled. -/
def initialWaitState : WaitState := ⟨[], [], false, none, false⟩

/-- Python dict assignment `d[k] = v` on an insertion-ordered dict:
replace in place if the key exists, else append. -/
def dictSet {α : Type} (l : List (String × α)) (k : String) (v : α) :
    List (String × α) :=
  if l.any (fun p => p.1 = k) then
    l.map (fun p => if p.1 = k then (k, v) else p)
  else l ++ [(k, v)]

/-- The `finish` closure: under the `settled` lock, if not yet settled,
mark settled and set `done_event`. -/
def finish (s : WaitState) : WaitState :=
  if s.settled then s else { s with settled := true, doneEvent := true }

/-- The `on_error_event` closure: under the lock, if not yet settled, mark
settled, record `str((event.get("data") or {}).get("error", "Stream
error"))`, and set `done_event`.  A truthy non-dict `data` raises after the
flag is already set. -/
def on_error_event (e : Event) (s : WaitState) : WaitState × Bool :=
  if s.settled then (s, false)
  else
    let s1 := { s with settled := true }
    match pyOr e.data (Json.obj []) with
    | Json.obj dfields =>
      ({ s1 with
          errorHolder := some (pyStr (lookupD dfields "error" (Json.str "Stream error")))
          doneEvent := true }, false)
    | _ => (s1, true)

/-- The `on_run_failed` closure: like `on_error_event` but reading
`data.get("errorMessage", "Run failed")`. -/
def on_run_failed (e : Event) (s : WaitState) : WaitState × Bool :=
  if s.settled then (s, false)
  else
    let s1 := { s with settled := true }
    match pyOr e.data (Json.obj []) with
    | Json.obj dfields =>
      ({ s1 with
          errorHolder := some (pyStr (lookupD dfields "errorMessage" (Json.str "Run failed")))
          doneEvent := true }, false)
    | _ => (s1, true)

/-- The `on_run_completed` closure: `finish()` unconditionally. -/
def on_run_completed (_e : Event) (s : WaitState) : WaitState × Bool :=
  (finish s, false)

/-- `rid = event.get("runId") or (event.get("data") or {}).get("runId")`
from `on_agent_inactive`.  `or` short-circuits, so the second operand is
only evaluated (and can only raise) when `event["runId"]` is falsy;
`none` models the `AttributeError` of `.get` on a truthy non-dict. -/
def ridOfAgentInactive (e : Event) : Option Json :=
  if e.runId.truthy then some e.runId
  else
    match pyOr e.data (Json.obj []) with
    | Json.obj dfields => some (lookupD dfields "runId" Json.null)
    | _ => none

/-- The `on_agent_inactive` closure: extract the event's run id and call
`finish()` only when it equals (`==`) the awaited `run_id`. -/
def on_agent_inactive (run_id : Json) (e : Event) (s : WaitState) : WaitState × Bool :=
  match ridOfAgentInactive e with
  | none => (s, true)
  | some rid => if Json.beq rid run_id then (finish s, false) else (s, false)

/-- The `on_space_message` closure: read
`(event.get("data") or {}).get("message") or {}`; if the message role is
`"assistant"` or `"agent"` and its content is truthy, append the content to
`text_parts`. -/
def on_space_message (e : Event) (s : WaitState) : WaitState × Bool :=
  match pyOr e.data (Json.obj []) with
  | Json.obj dfields =>
    match pyOr (lookupD dfields "message" Json.null) (Json.obj []) with
    | Json.obj mfields =>
      let role_ := lookupD mfields "role" (Json.str "")
      if Json.beq role_ (Json.str "assistant") || Json.beq role_ (Json.str "agent") then
        let c := lookupD mfields "content" Json.null
        if c.truthy then ({ s with textParts := s.textParts ++ [c] }, false)
        else (s, false)
      else (s, false)
    | _ => (s, true)
  | _ => (s, true)

/-- `call_id = str(data.get("streamId") or data.get("toolCallId") or "")`. -/
def callIdOf (dfields : List (String × Json)) : String :=
  pyStr (pyOr (lookupD dfields "streamId" Json.null)
    (pyOr (lookupD dfields "toolCallId" Json.null) (Json.str "")))

/-- The `on_tool_started` closure: insert a fresh tool-call record keyed by
the call id, with `input` and `output` `None`. -/
def on_tool_started (e : Event) (s : WaitState) : WaitState × Bool :=
  match pyOr e.data (Json.obj []) with
  | Json.obj dfields =>
    let call_id := callIdOf dfields
    if call_id = "" then (s, false)
    else
      ({ s with
          toolCalls := dictSet s.toolCalls call_id
            ⟨call_id, pyStr (lookupD dfields "toolName" (Json.str "")), Json.null, Json.null⟩ },
        false)
  | _ => (s, true)

/-- The `on_tool_done` closure: if the call id is already recorded, fill in
`input` and `output` (`data.get("result") or data.get("output")`). -/
def on_tool_done (e : Event) (s : WaitState) : WaitState × Bool :=
  match pyOr e.data (Json.obj []) with
  | Json.obj dfields =>
    let call_id := callIdOf dfields
    if s.toolCalls.any (fun p => p.1 = call_id) then
      ({ s with
          toolCalls := s.toolCalls.map (fun p =>
            if p.1 = call_id then
              (p.1,
                { p.2 with
                    input := lookupD dfields "input" Json.null
                    output :=
                      pyOr (lookupD dfields "result" Json.null)
                        (lookupD dfields "output" Json.null) })
            else p) },
        false)
    else (s, false)
  | _ => (s, true)

/-- An invocation of one of the four handlers that can settle the wait:
`run.completed`, `run.failed`, `agent.inactive`, or a stream-level `error`
event, each carrying the event it receives. -/
inductive SettleInv where
  | runCompleted (e : Event) : SettleInv
  | runFailed (e : Event) : SettleInv
  | agentInactive (e : Event) : SettleInv
  | streamError (e : Event) : SettleInv

/-- The state transition of one settling-handler invocation, as dispatched
by `_emit` (which swallows whatever the handler raises, so only the state
component remains). -/
def settleStep (run_id : Json) (s : WaitState) : SettleInv → WaitState
  | .runCompleted e => (on_run_completed e s).1
  | .runFailed e => (on_run_failed e s).1
  | .agentInactive e => (on_agent_inactive run_id e s).1
  | .streamError e => (on_error_event e s).1

/-- The space-scoped stream of `send_and_wait`:
`SSEStream(build_url(f"/api/smart-spaces/{space_id}/stream"), headers,
reconnect=False)`. -/
def space_stream_cfg (base_url space_id : String) : SSEStreamInit :=
  mkSSEStream (base_url ++ "/api/smart-spaces/" ++ space_id ++ "/stream") false

/-- The run-scoped stream of `send_and_wait`:
`SSEStream(build_url(f"/api/runs/{run_id}/stream"), headers,
reconnect=False)`, where `run_id` is interpolated with `str()`. -/
def run_stream_cfg (base_url : String) (run_id : Json) : SSEStreamInit :=
  mkSSEStream (base_url ++ "/api/runs/" ++ pyStr run_id ++ "/stream") false

/-- The dictionary `{"text": ..., "tool_calls": ..., "run": ...}` returned
by `send_and_wait`; `run` is `None` or `{"id": run_id}`. -/
structure SendWaitReturn where
  text : String
  tool_calls : List ToolCallRec
  run : Option Json

/-- How `send_and_wait` proceeds after the `send` call, as a function of
the returned run descriptors: return the empty result at once (before any
stream object is created, started or waited on), raise a `KeyError` /
`TypeError` from `runs[0]["runId"]`, or enter the correlated wait with the
first descriptor's run id and the two stream configurations built from it. -/
inductive Phase where
  | shortCircuit (ret : SendWaitReturn) : Phase
  | keyError : Phase
  | correlatedWait (run_id : Json) (space run : SSEStreamInit) : Phase

/-- Lines 57-96 of `messages.py`: `runs = result.get("runs", [])`; if the
list is empty return `{"text": "", "tool_calls": [], "run": None}`
immediately, otherwise take `runs[0]["runId"]` and construct the two
streams. -/
def send_and_wait_front (base_url space_id : String) (runs : List Json) : Phase :=
  match runs with
  | [] => .shortCircuit ⟨"", [], none⟩
  | r :: _ =>
    match r with
    | Json.obj rfields =>
      match lookupField rfields "runId" with
      | some rid =>
        .correlatedWait rid (space_stream_cfg base_url space_id)
          (run_stream_cfg base_url rid)
      | none => .keyError
    | _ => .keyError

/-- What `done_event.wait(timeout=timeout)` observed: the deadline passed
without the event being set, or a handler settled the wait leaving the
shared state `s`. -/
inductive WaitOutcome where
  | timedOut : WaitOutcome
  | settled (s : WaitState) : WaitOutcome

/-- The outcome of the `try` body of `send_and_wait` (lines 154-163). -/
inductive FinishResult where
  | ok (ret : SendWaitReturn) : FinishResult
  | timeoutError (timeout : ℚ) : FinishResult
  | runtimeError (msg : String) : FinishResult
  | typeErrorEscape : FinishResult

/-- `"\n".join(text_parts)`: joins when every part is a string, raises a
`TypeError` (`none`) otherwise. -/
def joinTextParts (l : List Json) : Option String :=
  (l.mapM (fun j => match j with | Json.str s => some s | _ => none)).map
    (String.intercalate "\n")

/-- The `try` body of lines 154-163: raise `TimeoutError` if the wait timed
out, raise `RuntimeError(error_holder["error"])` if an error was recorded,
otherwise return the joined text, the tool-call records in first-insertion
order (`list(tool_calls.values())`) and `{"id": run_id}`. -/
def send_and_wait_body (run_id : Json) (timeout : ℚ) : WaitOutcome → FinishResult
  | .timedOut => .timeoutError timeout
  | .settled s =>
    match s.errorHolder with
    | some msg => .runtimeError msg
    | none =>
      match joinTextParts s.textParts with
      | some text =>
        .ok ⟨text, s.toolCalls.map (fun p => p.2), some (Json.obj [("id", run_id)])⟩
      | none => .typeErrorEscape

/-- Lines 154-166 with the `finally` block: whatever the `try` body does,
`space_stream.close()` and `run_stream.close()` both run before control
leaves `send_and_wait` (the two booleans are the streams' `_closed`
flags). -/
def send_and_wait_finish (run_id : Json) (timeout : ℚ) (o : WaitOutcome) :
    FinishResult × Bool × Bool :=
  (send_and_wait_body run_id timeout o, true, true)

/-- The default of the `timeout` parameter of `send_and_wait`
(`timeout: float = 30.0`). -/
def send_and_wait_default_timeout : ℚ := 30

/-! ## Concrete test data -/

/-- A tagging listener for observing dispatch order: appends its tag to the
state and reports the given raise behaviour. -/
def tagHandler (tag : Nat) (raises : Bool) : HandlerB (List Nat) :=
  fun _ s => (s ++ [tag], raises)

/-- A decoded `run.failed` event whose payload carries
`errorMessage: "boom"`. -/
def boomEvent : Event :=
  { id := Json.str ""
    type := Json.str "run.failed"
    ts := Json.str ""
    data := Json.obj [("errorMessage", Json.str "boom")]
    smartSpaceId := Json.null
    runId := Json.null
    entityId := Json.null
    agentEntityId := Json.null
    seq := Json.null }

/-- A decoded `agent.inactive` event correlated to run id `"other-run"`. -/
def otherRunEvent : Event :=
  { id := Json.str ""
    type := Json.str "agent.inactive"
    ts := Json.str ""
    data := Json.null
    smartSpaceId := Json.null
    runId := Json.str "other-run"
    entityId := Json.null
    agentEntityId := Json.null
    seq := Json.null }

/-- The wire text of a frame whose JSON document has a null `data` field. -/
def nullDataText : List Char := "\x7b\"data\": null\x7d".toList

/-- A JSON parser consistent with `json.loads` on the one input the
counterexample frame carries. -/
def parseNullData (s : List Char) : Option Json :=
  if s = nullDataText then some (Json.obj [("data", Json.null)]) else none

/-- The raw frame holding `nullDataText` as its single data line. -/
def nullDataFrame : RawFrame := ⟨[nullDataText], none, none⟩

/-! ## Claims -/

/-- C1, counterexample: contrary to the claim, the two SSE streams opened
by `send_and_wait` are not both opened with reconnection enabled — at a
concrete space and run both constructions pass `reconnect=False`. -/
theorem c1_reconnect_counterexample :
    ¬((space_stream_cfg "https://gw.example" "space-1").reconnect = true ∧
      (run_stream_cfg "https://gw.example" (Json.str "run-1")).reconnect = true) := by
  intro h
  exact absurd h.1 (by decide)

/-- C1, amended: in `send_and_wait` both the space-scoped stream and the
run-scoped stream are opened with reconnection disabled (`reconnect=False`),
so a transport failure on either stream performs no back-off sleep and ends
that stream's read loop permanently. -/
theorem c1_reconnect_disabled :
    (∀ base sid, (space_stream_cfg base sid).reconnect = false) ∧
    (∀ base rid, (run_stream_cfg base rid).reconnect = false) ∧
    (∀ (b m : ℚ) (a : Nat) (rest : List ConnOutcome),
      runLoop false b m a (ConnOutcome.failure :: rest) = ([], true)) :=
  ⟨fun _ _ => rfl, fun _ _ => rfl, fun _ _ _ _ => rfl⟩

/-- C7: a frame whose joined data string is empty produces no event, and a
frame whose joined data string fails to parse as JSON produces no event;
in both cases `_process_raw` returns `none`, so no listener is invoked and
no exception reaches the caller. -/
theorem c7_decoder_swallow :
    (∀ (parse : List Char → Option Json) (raw : RawFrame),
      (joinNL raw.data).isEmpty = true → process_raw parse raw = none) ∧
    (∀ (parse : List Char → Option Json) (raw : RawFrame),
      parse (joinNL raw.data) = none → process_raw parse raw = none) := by
  constructor
  · intro parse raw h
    simp [process_raw, h]
  · intro parse raw h
    unfold process_raw
    by_cases he : (joinNL raw.data).isEmpty
    · simp [he]
    · simp [he, h]

/-- C7, witness: a frame with one undecodable data line yields no event. -/
theorem c7_decoder_swallow_witness :
    process_raw (fun _ => none) ⟨[['x']], none, none⟩ = none :=
  c7_decoder_swallow.2 (fun _ => none) ⟨[['x']], none, none⟩ rfl

/-- C8: if the bounded wait times out, `send_and_wait` raises a
`TimeoutError` carrying the caller-supplied timeout (default 30 seconds),
which is a different error from the `RuntimeError` raised for a settlement
failure; and on every exit path of the `try`/`finally` block — success,
settlement failure, timeout, or anything else — both the space stream and
the run stream are closed. -/
theorem c8_timeout_and_close :
    (∀ (rid : Json) (t : ℚ) (o : WaitOutcome),
      (send_and_wait_finish rid t o).2 = (true, true)) ∧
    (∀ (rid : Json) (t : ℚ),
      (send_and_wait_finish rid t WaitOutcome.timedOut).1 = FinishResult.timeoutError t) ∧
    (∀ (t : ℚ) (m : String), FinishResult.timeoutError t ≠ FinishResult.runtimeError m) ∧
    send_and_wait_default_timeout = 30 :=
  ⟨fun _ _ _ => rfl, fun _ _ => rfl, fun _ _ h => FinishResult.noConfusion h, rfl⟩

/-- C9: when the send call returns no run descriptors, `send_and_wait`
short-circuits — before any stream object is built, started or waited on —
and returns `{"text": "", "tool_calls": [], "run": None}`. -/
theorem c9_empty_runs_short_circuit :
    ∀ base sid, send_and_wait_front base sid [] = Phase.shortCircuit ⟨"", [], none⟩ :=
  fun _ _ => rfl

/-- C10: only the first run descriptor matters — the wait phase computed
from `runs` is the same as the one computed from `[runs[0]]`, so the
run-scoped stream is opened for the first descriptor's run id only — and
an `agent.inactive` event whose extracted run id differs from the awaited
one leaves the correlation state untouched. -/
theorem c10_first_run_only :
    (∀ base sid (r : Json) (rest : List Json),
      send_and_wait_front base sid (r :: rest) = send_and_wait_front base sid [r]) ∧
    (∀ (run_id : Json) (e : Event) (s : WaitState),
      (∀ rid, ridOfAgentInactive e = some rid → Json.beq rid run_id = false) →
      (on_agent_inactive run_id e s).1 = s) := by
  constructor
  · intro base sid r rest
    rfl
  · intro run_id e s h
    unfold on_agent_inactive
    cases hr : ridOfAgentInactive e with
    | none => rfl
    | some rid => simp [h rid hr]

/-- C10, witness: an `agent.inactive` event for run `"other-run"` does not
settle a wait correlated to run `"run-1"`. -/
theorem c10_first_run_only_witness :
    (on_agent_inactive (Json.str "run-1") otherRunEvent initialWaitState).1
      = initialWaitState :=
  c10_first_run_only.2 (Json.str "run-1") otherRunEvent initialWaitState
    (fun rid h => by
      have hr : Json.str "other-run" = rid := Option.some.inj h
      rw [← hr]
      rfl)

/-- C3, counterexample: contrary to the claim, the parser strips every
leading space from a field value, not at most one — the line `"data:  x"`
(two spaces after the colon) stores the data value `"x"`, not `" x"`. -/
theorem c3_lstrip_counterexample :
    (processLine emptyFrame ("data:  x".toList)).1.data ≠ [(" x".toList)] ∧
    (processLine emptyFrame ("data:  x".toList)).1.data = [("x".toList)] :=
  ⟨by decide, by decide⟩

/-- C3, amended: a field line is split at its first colon, and all leading
spaces (not just one) are stripped from the value before it is stored under
a recognized field (`data` appended, `id` and `event` assigned); the line
`"data:  x"` therefore yields the data value `"x"`. -/
theorem c3_split_and_lstrip :
    (∀ (f : RawFrame) (post : List Char),
      processLine f ("data:".toList ++ post)
        = ({ f with data := f.data ++ [post.dropWhile (fun ch => ch = ' ')] }, none)) ∧
    (∀ (f : RawFrame) (post : List Char),
      processLine f ("id:".toList ++ post)
        = ({ f with id := some (post.dropWhile (fun ch => ch = ' ')) }, none)) ∧
    (∀ (f : RawFrame) (post : List Char),
      processLine f ("event:".toList ++ post)
        = ({ f with type := some (post.dropWhile (fun ch => ch = ' ')) }, none)) ∧
    (processLine emptyFrame ("data:  x".toList)).1.data = [("x".toList)] :=
  ⟨fun _ _ => rfl, fun _ _ => rfl, fun _ _ => rfl, by decide⟩

/-- Back-off sleeps over a block of consecutive failures, for any starting
value of the attempt counter. -/
theorem runLoop_replicate_failure (b m : ℚ) :
    ∀ (n a : Nat),
      runLoop true b m a (List.replicate n ConnOutcome.failure)
        = ((List.range n).map (fun i => min (b * 2 ^ (a + i)) m), false) := by
  intro n
  induction n with
  | zero => intro a; rfl
  | succ k ih =>
    intro a
    rw [List.replicate_succ, List.range_succ_eq_map]
    show (min (b * 2 ^ a) m :: (runLoop true b m (a + 1) (List.replicate k ConnOutcome.failure)).1,
          (runLoop true b m (a + 1) (List.replicate k ConnOutcome.failure)).2)
      = _
    rw [ih (a + 1)]
    have hmap : List.map (fun i => min (b * 2 ^ (a + 1 + i)) m) (List.range k)
        = List.map ((fun i => min (b * 2 ^ (a + i)) m) ∘ Nat.succ) (List.range k) := by
      apply List.map_congr_left
      intro i _
      simp only [Function.comp_apply]
      have h1 : a + 1 + i = a + (i + 1) := by omega
      rw [h1]
    conv_rhs => rw [List.map_cons, List.map_map]
    rw [Nat.add_zero, hmap]
    rfl

/-- C5: starting from a reset attempt counter, the back-off sleep before
reconnect attempt `n` is `min(reconnect_delay * 2 ** (n - 1),
max_reconnect_delay)` for `n = 1, 2, ...`; a successful open resets the
attempt counter to 0 no matter its previous value; and hence the first
failure after a successful open sleeps `reconnect_delay` again (when the
base delay does not exceed the cap). -/
theorem c5_backoff_sequence :
    (∀ (b m : ℚ) (n : Nat),
      runLoop true b m 0 (List.replicate n ConnOutcome.failure)
        = ((List.range n).map (fun i => min (b * 2 ^ i) m), false)) ∧
    (∀ (b m : ℚ) (a : Nat) (rest : List ConnOutcome),
      runLoop true b m a (ConnOutcome.success :: rest) = runLoop true b m 0 rest) ∧
    (∀ (b m : ℚ) (a : Nat) (rest : List ConnOutcome), b ≤ m →
      (runLoop true b m a (ConnOutcome.success :: ConnOutcome.failure :: rest)).1.head?
        = some b) := by
  refine ⟨?_, ?_, ?_⟩
  · intro b m n
    rw [runLoop_replicate_failure b m n 0]
    simp
  · intro b m a rest
    rfl
  · intro b m a rest hbm
    show (min (b * 2 ^ (0 : Nat)) m :: (runLoop true b m 1 rest).1, _).1.head? = some b
    simp [min_eq_left, hbm]

/-- C5, witness: with base delay 1 and cap 30, a failure right after a
successful open (here one following five earlier attempts) sleeps 1. -/
theorem c5_backoff_sequence_witness :
    (runLoop true 1 30 5 [ConnOutcome.success, ConnOutcome.failure]).1.head? = some 1 :=
  c5_backoff_sequence.2.2 1 30 5 [] (by norm_num)

/-- Running a concatenation of handler lists runs the first list, then the
second, on the resulting state. -/
theorem runHandlers_append {σ : Type} (A B : List (HandlerB σ)) (e : Event) (s : σ) :
    runHandlers (A ++ B) e s = runHandlers B e (runHandlers A e s) :=
  List.foldl_append _ _ A B

/-- Tagging handlers record their tags in order, whatever their raise
flags, and the flags never surface. -/
theorem runHandlers_tag (e : Event) :
    ∀ (l : List (String × Nat × Bool)) (s : List Nat),
      runHandlers (l.map fun p => tagHandler p.2.1 p.2.2) e s = s ++ l.map (fun p => p.2.1) := by
  intro l
  induction l with
  | nil => intro s; simp [runHandlers]
  | cons p rest ih =>
    intro s
    simp only [List.map_cons, runHandlers, List.foldl_cons] at *
    rw [ih]
    simp [tagHandler]

/-- `handlersFor` over a registry of tagging handlers is the filtered,
mapped registration list. -/
theorem handlersFor_tag (tagged : List (String × Nat × Bool)) (u : String) :
    handlersFor (tagged.map fun p => (p.1, tagHandler p.2.1 p.2.2)) u
      = (tagged.filter fun p => p.1 = u).map (fun p => tagHandler p.2.1 p.2.2) := by
  unfold handlersFor
  rw [List.filter_map, List.map_map]
  rfl

/-- C6: `_emit` runs exactly the handlers registered for the event's type,
in registration order, followed by the wildcard handlers, in registration
order: for any state type it equals running the concatenation of the two
per-key handler lists, and with tagging listeners the recorded trace is the
full tag sequence of both lists regardless of which listeners raise — so a
raising listener never prevents a later one, and `_emit` always returns
(each call is individually wrapped, no exception escapes to the read
loop). -/
theorem c6_emit_order_and_isolation :
    (∀ (σ : Type) (regs : List (String × HandlerB σ)) (t : String) (e : Event) (s : σ),
      emit regs (Json.str t) e s
        = runHandlers (handlersFor regs t ++ handlersFor regs "*") e s) ∧
    (∀ (tagged : List (String × Nat × Bool)) (t : String) (e : Event),
      emit (tagged.map fun p => (p.1, tagHandler p.2.1 p.2.2)) (Json.str t) e []
        = ((tagged.filter fun p => p.1 = t).map fun p => p.2.1)
          ++ ((tagged.filter fun p => p.1 = "*").map fun p => p.2.1)) := by
  constructor
  · intro σ regs t e s
    rw [runHandlers_append]
    rfl
  · intro tagged t e
    show runHandlers (handlersFor (tagged.map fun p => (p.1, tagHandler p.2.1 p.2.2)) "*") e
        (runHandlers (handlersFor (tagged.map fun p => (p.1, tagHandler p.2.1 p.2.2)) t) e [])
      = _
    rw [handlersFor_tag, handlersFor_tag, runHandlers_tag, runHandlers_tag]
    simp

/-- Once the wait is settled, every settling-handler invocation leaves the
shared state exactly as it is: the `if not _settled[0]` guard under the
`settled` lock short-circuits each of the four handlers. -/
theorem settleStep_frozen (rid : Json) (s : WaitState) (i : SettleInv)
    (hs : s.settled = true) : settleStep rid s i = s := by
  cases i with
  | runCompleted e => simp [settleStep, on_run_completed, finish, hs]
  | runFailed e => simp [settleStep, on_run_failed, hs]
  | agentInactive e =>
    simp only [settleStep, on_agent_inactive]
    cases hr : ridOfAgentInactive e with
    | none => rfl
    | some rid2 =>
      by_cases hb : Json.beq rid2 rid = true
      · simp [hb, finish, hs]
      · simp [hb]
  | streamError e => simp [settleStep, on_error_event, hs]

/-- C2: the settled flag of a correlated wait transitions from false to
true at most once — every settling-handler invocation either leaves the
state unchanged or leaves it settled, a settled state is a fixed point of
every further sequence of settling invocations, and a `run.failed` event
carrying `errorMessage: "boom"` settles an unsettled wait with error
`"boom"` after which a `run.completed` invocation changes nothing. -/
theorem c2_settled_once :
    (∀ (rid : Json) (s : WaitState) (i : SettleInv), s.settled = true →
      settleStep rid s i = s) ∧
    (∀ (rid : Json) (s : WaitState) (i : SettleInv), s.settled = false →
      settleStep rid s i = s ∨ (settleStep rid s i).settled = true) ∧
    (∀ (rid : Json) (invs : List SettleInv) (s : WaitState), s.settled = true →
      invs.foldl (settleStep rid) s = s) ∧
    (∀ (rid : Json) (s : WaitState), s.settled = false →
      (settleStep rid s (SettleInv.runFailed boomEvent)).settled = true ∧
      (settleStep rid s (SettleInv.runFailed boomEvent)).errorHolder = some "boom" ∧
      ∀ e2, settleStep rid (settleStep rid s (SettleInv.runFailed boomEvent))
          (SettleInv.runCompleted e2)
        = settleStep rid s (SettleInv.runFailed boomEvent)) := by
  refine ⟨settleStep_frozen, ?_, ?_, ?_⟩
  · intro rid s i hs
    cases i with
    | runCompleted e =>
      right
      simp [settleStep, on_run_completed, finish, hs]
    | runFailed e =>
      right
      simp only [settleStep, on_run_failed, hs]
      cases hpd : pyOr e.data (Json.obj []) <;> simp
    | agentInactive e =>
      simp only [settleStep, on_agent_inactive]
      cases hr : ridOfAgentInactive e with
      | none => left; rfl
      | some rid2 =>
        by_cases hb : Json.beq rid2 rid = true
        · right
          simp [hb, finish, hs]
        · left
          simp [hb]
    | streamError e =>
      right
      simp only [settleStep, on_error_event, hs]
      cases hpd : pyOr e.data (Json.obj []) <;> simp
  · intro rid invs s hs
    induction invs with
    | nil => rfl
    | cons i rest ih =>
      rw [List.foldl_cons, settleStep_frozen rid s i hs]
      exact ih
  · intro rid s hs
    have key : settleStep rid s (SettleInv.runFailed boomEvent)
        = { s with settled := true, errorHolder := some "boom", doneEvent := true } := by
      simp [settleStep, on_run_failed, hs, boomEvent, pyOr, Json.truthy, lookupD, lookupField,
        pyStr]
    refine ⟨by rw [key], by rw [key], ?_⟩
    intro e2
    rw [key]
    exact settleStep_frozen rid _ _ rfl

/-- C2, witness: from the unsettled initial state, the boom `run.failed`
invocation records error `"boom"`, and a following `run.completed`
invocation leaves the state unchanged. -/
theorem c2_settled_once_witness :
    (settleStep (Json.str "run-1") initialWaitState (SettleInv.runFailed boomEvent)).errorHolder
      = some "boom" ∧
    settleStep (Json.str "run-1")
        (settleStep (Json.str "run-1") initialWaitState (SettleInv.runFailed boomEvent))
        (SettleInv.runCompleted boomEvent)
      = settleStep (Json.str "run-1") initialWaitState (SettleInv.runFailed boomEvent) := by
  have h := c2_settled_once.2.2.2 (Json.str "run-1") initialWaitState rfl
  exact ⟨h.2.1, h.2.2 boomEvent⟩

/-- C4, counterexample: contrary to the claim, a parsed document whose
`data` field is null does not make null the event payload — `parsed.get
("data") or parsed` falls back to the whole document on every falsy value,
so the frame decoding `{"data": null}` yields the whole document as
payload, not null. -/
theorem c4_falsy_data_counterexample :
    (process_raw parseNullData nullDataFrame).map Event.data
      = some (Json.obj [("data", Json.null)]) ∧
    Json.obj [("data", Json.null)] ≠ Json.null :=
  ⟨rfl, fun h => Json.noConfusion h⟩

/-- C4, amended: for a frame whose joined data string parses as a JSON
object, the `data` field of the parsed document becomes the event payload
only when its value is truthy; when the field is absent — and likewise when
its value is falsy (null, false, 0, empty string, empty collection) — the
whole parsed document is the payload. -/
theorem c4_payload_selection :
    ∀ (parse : List Char → Option Json) (raw : RawFrame) (fields : List (String × Json)),
      (joinNL raw.data).isEmpty = false →
      parse (joinNL raw.data) = some (Json.obj fields) →
      ∃ ev, process_raw parse raw = some ev ∧
        (∀ v, lookupField fields "data" = some v → v.truthy = true → ev.data = v) ∧
        (∀ v, lookupField fields "data" = some v → v.truthy = false →
          ev.data = Json.obj fields) ∧
        (lookupField fields "data" = none → ev.data = Json.obj fields) := by
  intro parse raw fields he hp
  have hpr : process_raw parse raw
      = some
          { id := pyOr (optJson raw.id) (lookupD fields "id" (Json.str ""))
            type :=
              pyOr (lookupD fields "type" Json.null)
                (pyOr (optJson raw.type) (Json.str "unknown"))
            ts := lookupD fields "ts" (Json.str "")
            data := pyOr (lookupD fields "data" Json.null) (Json.obj fields)
            smartSpaceId := lookupD fields "smartSpaceId" Json.null
            runId :=
              pyOr (lookupD fields "runId" Json.null)
                (match pyOr (lookupD fields "data" Json.null) (Json.obj fields) with
                 | Json.obj dfields => lookupD dfields "runId" Json.null
                 | _ => Json.null)
            entityId := lookupD fields "entityId" Json.null
            agentEntityId := lookupD fields "agentEntityId" Json.null
            seq := lookupD fields "seq" Json.null } := by
    simp only [process_raw, he, hp]
    rfl
  refine ⟨_, hpr, ?_, ?_, ?_⟩
  · intro v hv htr
    show pyOr (lookupD fields "data" Json.null) (Json.obj fields) = v
    rw [lookupD, hv]
    simp [pyOr, htr]
  · intro v hv htr
    show pyOr (lookupD fields "data" Json.null) (Json.obj fields) = Json.obj fields
    rw [lookupD, hv]
    simp [pyOr, htr]
  · intro hv
    show pyOr (lookupD fields "data" Json.null) (Json.obj fields) = Json.obj fields
    rw [lookupD, hv]
    simp [pyOr, Json.truthy]

/-- C4, witness: the `{"data": null}` frame decodes to an event whose
payload is the whole parsed document (the falsy branch of the amended
claim, at a concrete input). -/
theorem c4_payload_selection_witness :
    ∃ ev, process_raw parseNullData nullDataFrame = some ev ∧
      ev.data = Json.obj [("data", Json.null)] := by
  obtain ⟨ev, hev, _, hfalsy, _⟩ :=
    c4_payload_selection parseNullData nullDataFrame [("data", Json.null)] rfl rfl
  exact ⟨ev, hev, hfalsy Json.null rfl rfl⟩
